import Mathlib

/-!
Verification of the checksum-based sheet synchronization engine in
`src/playrix/main.py`.

The Python program keeps a Gridly destination in sync with Google-Sheet
sources.  Its core is pure: a CRC32 row checksum (`compute_row_hash`),
snapshot builders (`process_sheet`, `process_gridly_grid`), and a diff
engine (`sheets_equal`, `find_new_rows`).  The reconciliation loop in
`main` is embedded as an explicit state-passing function (`run_cycle`)
with the external I/O (sheet fetches) abstracted as an `Except`-valued
reader.  Python dictionaries are embedded as insertion-ordered
association lists with overwrite-on-insert, matching `dict` semantics.
All machine integers are `Nat`; CRC32 values stay below `2 ^ 32`
because every step is a right-shift or an xor of 32-bit values.
-/

set_option maxRecDepth 10000

namespace Playrix

/-- The reversed CRC-32 polynomial 0xEDB88320 used by `zlib.crc32`. -/
def POLY : Nat := 0xEDB88320

/-- One bit step of the reflected CRC-32 algorithm: shift right, and
xor in the polynomial when the low bit was set. -/
def crcBit (crc : Nat) : Nat :=
  if crc % 2 = 1 then (crc >>> 1) ^^^ POLY else crc >>> 1

/-- Process one byte: xor it into the low byte of the state, then run
eight bit steps. -/
def crcByte (crc b : Nat) : Nat :=
  crcBit (crcBit (crcBit (crcBit (crcBit (crcBit (crcBit (crcBit (crc ^^^ b))))))))

/-- CRC-32 of a byte sequence, as computed by `zlib.crc32` with the
default starting value: initial state 0xFFFFFFFF, one `crcByte` per
input byte, final complement. -/
def crc32 (bytes : List Nat) : Nat :=
  (bytes.foldl crcByte 0xFFFFFFFF) ^^^ 0xFFFFFFFF

/-- UTF-8 encoding of a single character, as `str.encode()` produces
for each code point. -/
def utf8Bytes (c : Char) : List Nat :=
  let n := c.toNat
  if n < 0x80 then [n]
  else if n < 0x800 then
    [0xC0 ||| (n >>> 6), 0x80 ||| (n &&& 0x3F)]
  else if n < 0x10000 then
    [0xE0 ||| (n >>> 12), 0x80 ||| ((n >>> 6) &&& 0x3F), 0x80 ||| (n &&& 0x3F)]
  else
    [0xF0 ||| (n >>> 18), 0x80 ||| ((n >>> 12) &&& 0x3F),
     0x80 ||| ((n >>> 6) &&& 0x3F), 0x80 ||| (n &&& 0x3F)]

/-- UTF-8 byte sequence of a string (`str.encode()` in Python). -/
def strBytes (s : String) : List Nat :=
  s.toList.flatMap utf8Bytes

/-- Embedding of `compute_row_hash` (main.py lines 152-154): join the
cell strings with no separator and take `zlib.crc32` of the UTF-8
bytes of the result. -/
def compute_row_hash (row_data : List String) : Nat :=
  crc32 (strBytes (String.join row_data))

/-- Embedding of the `RowChecksum` dataclass (main.py lines 42-46). -/
structure RowChecksum where
  row_id : Nat
  row_checksum : Nat
  row_content : List String
deriving DecidableEq, Repr

/-- Embedding of the `SheetChecksum` dataclass (main.py lines 48-56);
`hashed_rows` defaults to the empty list as in `__post_init__`. -/
structure SheetChecksum where
  sheet_title : String
  reference : Option String := none
  hashed_rows : List RowChecksum := []
deriving DecidableEq, Repr

/-- A Gridly cell as in the `Cell` TypedDict (main.py lines 24-26). -/
structure Cell where
  columnId : String
  value : String
deriving DecidableEq, Repr

/-- A Gridly record as in the `Record` TypedDict (main.py lines 28-30). -/
structure Record where
  id : String
  cells : List Cell
deriving DecidableEq, Repr

/-- A Python `dict` with string keys, embedded as an insertion-ordered
association list; `Dict.lookup` is key lookup and membership test. -/
abbrev Dict (α : Type) : Type := List (String × α)

/-- Lookup in the embedded dict (`d[k]` / `k in d`). -/
def Dict.lookup {α : Type} (m : Dict α) (k : String) : Option α :=
  List.lookup k m

/-- Insertion with Python `dict` semantics: overwrite the existing
entry in place when the key is present, append otherwise. -/
def Dict.insert {α : Type} (m : Dict α) (k : String) (v : α) : Dict α :=
  match m with
  | [] => [(k, v)]
  | (k₁, v₁) :: rest =>
    if k₁ = k then (k, v) :: rest else (k₁, v₁) :: Dict.insert rest k v

/-- One binding step of the dict comprehension in `sheets_equal`:
record `r.row_checksum` under key `r.row_id`, shadowing earlier
bindings of the same key. -/
def rowDictStep (d : Nat → Option Nat) (r : RowChecksum) : Nat → Option Nat :=
  fun k => if k = r.row_id then some r.row_checksum else d k

/-- Embedding of the dict comprehension in `sheets_equal` (main.py line
210): map each `row_id` to its `row_checksum`; a later duplicate key
overwrites an earlier one, as in a Python dict. -/
def rowDict (rows : List RowChecksum) : Nat → Option Nat :=
  rows.foldl rowDictStep (fun _ => none)

/-- Embedding of `sheets_equal` (main.py lines 201-216): `none` when
the title is missing from the Google-side dict, otherwise the
Google-side rows whose `row_id` is a key of the Gridly-side row dict
with a different checksum there. -/
def sheets_equal (gridly_title : String) (hashed_sheet : SheetChecksum)
    (google_sheets : Dict SheetChecksum) : Option (List RowChecksum) :=
  match Dict.lookup google_sheets gridly_title with
  | none => none
  | some google_sheet =>
    let hashed_sheet_dict := rowDict hashed_sheet.hashed_rows
    some (google_sheet.hashed_rows.filter (fun row =>
      match hashed_sheet_dict row.row_id with
      | some c => decide (c ≠ row.row_checksum)
      | none => false))

/-- Embedding of `find_new_rows` (main.py lines 219-230): `none` when
the title is missing, `none` when the Google side did not grow, and
otherwise the slice `google_sheet.hashed_rows[-diff:]`. -/
def find_new_rows (current_google_hash : Dict SheetChecksum)
    (gridly_sheet : SheetChecksum) : Option (List RowChecksum) :=
  match Dict.lookup current_google_hash gridly_sheet.sheet_title with
  | none => none
  | some google_sheet =>
    let diff : Int :=
      (google_sheet.hashed_rows.length : Int) - gridly_sheet.hashed_rows.length
    if diff ≤ 0 then none
    else some (google_sheet.hashed_rows.drop
      (google_sheet.hashed_rows.length - diff.toNat))

/-- The row list built by `process_sheet` (main.py lines 164-167): skip
the header row, then `RowChecksum(i-1, hash, row)` for the data rows,
i.e. positions are the 0-based indices among the data rows. -/
def process_sheet_rows (data : List (List String)) : List RowChecksum :=
  (data.drop 1).enum.map (fun p =>
    RowChecksum.mk p.1 (compute_row_hash p.2) p.2)

/-- Embedding of `process_sheet` (main.py lines 157-176).  The Google
Sheets fetch is abstracted as `fetch`; an exception from it is caught
and logged, leaving the map unchanged.  When the fetched data is empty
(`if not data`) the function returns without adding an entry. -/
def process_sheet (title : String)
    (fetch : String → Except String (List (List String)))
    (sheet_hashes : Dict SheetChecksum) : Dict SheetChecksum :=
  match fetch title with
  | .error _ => sheet_hashes
  | .ok data =>
    if data.isEmpty then sheet_hashes
    else Dict.insert sheet_hashes title
      { sheet_title := title, hashed_rows := process_sheet_rows data }

/-- The row list built by `process_gridly_grid` (main.py lines
186-193): for the i-th fetched record, prepend its id to its cell
values and checksum the result, with position `i`. -/
def process_gridly_rows (records : List Record) : List RowChecksum :=
  records.enum.map (fun p =>
    let processed_rows := p.2.id :: p.2.cells.map (fun c => c.value)
    RowChecksum.mk p.1 (compute_row_hash processed_rows) processed_rows)

/-- The record payload both `add_rows_to_gridly` (main.py lines 77-93)
and `update_gridly_row` (main.py lines 96-110) build from one row:
`row_content[0]` becomes the record id and `row_content[1:]` become
the values of columns named column1, column2, ...  An empty
`row_content` would raise `IndexError` in Python, embedded as `none`. -/
def row_to_record (row : RowChecksum) : Option Record :=
  match row.row_content with
  | [] => none
  | record_id :: column_values =>
    some (Record.mk record_id (column_values.enum.map (fun p =>
      Cell.mk ("column" ++ toString (p.1 + 1)) p.2)))

/-- Characterization predicate for update-detection, stated the way
the specification reads: a candidate row is reported when its position
is a position of the baseline and the checksum stored there differs. -/
def changed_spec (baseline : List RowChecksum) (r : RowChecksum) : Bool :=
  match baseline[r.row_id]? with
  | some b => decide (b.row_checksum ≠ r.row_checksum)
  | none => false

/-- The per-table body of the `while` loop of `main` (main.py lines
280-301), iterated over the destination-side entries.  Each iteration
performs `current_google_hash[title].reference = sheet.reference`,
which raises an uncaught `KeyError` when `title` is absent from the
freshly built source map; the embedding returns `Except.error title`
there, aborting the rest of the cycle exactly as the exception aborts
the `for` loop.  On success it records the processed title and carries
the reference-updated source map, which line 301 installs as the new
destination state. -/
def cycle_tables : List (String × SheetChecksum) → Dict SheetChecksum →
    List String → Except String (List String × Dict SheetChecksum)
  | [], cur, proc => .ok (proc.reverse, cur)
  | (title, sheet) :: rest, cur, proc =>
    match Dict.lookup cur title with
    | none => .error title
    | some g =>
      cycle_tables rest (Dict.insert cur title { g with reference := sheet.reference })
        (title :: proc)

/-- One cycle of the reconciliation loop of `main` (main.py lines
271-304): rebuild the source map by running `process_sheet` over the
configured sheet names, then run the per-table body over the stored
destination entries.  Returns the processed titles and the
destination state left for the next cycle, or the title at which an
uncaught `KeyError` aborted the cycle.  When the destination map is
empty the rebinding on line 301 never runs, so the old state is kept. -/
def run_cycle (sheet_names : List String)
    (fetch : String → Except String (List (List String)))
    (gridly_sheets : Dict SheetChecksum) :
    Except String (List String × Dict SheetChecksum) :=
  let current := sheet_names.foldl (fun m t => process_sheet t fetch m) []
  match cycle_tables gridly_sheets current [] with
  | .error t => .error t
  | .ok (proc, cur) => .ok (proc, if gridly_sheets.isEmpty then gridly_sheets else cur)

/-- Python truthiness of an optional row list: `None` and `[]` are
falsy, a non-empty list is truthy. -/
def truthy : Option (List RowChecksum) → Bool
  | none => false
  | some l => !l.isEmpty

/-- The bootstrap status line of `main` (main.py lines 265-268): the
string logged for a table given the result of `sheets_equal`. -/
def bootstrap_status (rows : Option (List RowChecksum)) : String :=
  if truthy rows then "fully matches" else "does not match"

/-! ## Helper lemmas: the embedded dict and the row dict -/

theorem Dict.lookup_insert_self {α : Type} (m : Dict α) (k : String) (v : α) :
    Dict.lookup (Dict.insert m k v) k = some v := by
  induction m with
  | nil => simp [Dict.insert, Dict.lookup, List.lookup]
  | cons p rest ih =>
    obtain ⟨k₁, v₁⟩ := p
    by_cases h : k₁ = k
    · simp [Dict.insert, h, Dict.lookup, List.lookup]
    · have hne : (k == k₁) = false := by
        simp [Ne.symm h]
      simpa [Dict.insert, h, Dict.lookup, List.lookup, hne] using ih

theorem rowDictStep_or_none (d : Nat → Option Nat) (r : RowChecksum) (k : Nat) :
    rowDictStep d r k = (rowDictStep (fun _ => none) r k).or (d k) := by
  by_cases h : k = r.row_id <;> simp [rowDictStep, h]

theorem foldl_rowDictStep_or (rows : List RowChecksum) :
    ∀ (d : Nat → Option Nat) (k : Nat),
      (rows.foldl rowDictStep d) k = (rowDict rows k).or (d k) := by
  induction rows with
  | nil => intro d k; simp [rowDict]
  | cons r rows ih =>
    intro d k
    show (rows.foldl rowDictStep (rowDictStep d r)) k = _
    have hR : rowDict (r :: rows) k
        = (rowDict rows k).or (rowDictStep (fun _ => none) r k) := by
      show (rows.foldl rowDictStep (rowDictStep (fun _ => none) r)) k = _
      rw [ih _ k]
    rw [ih (rowDictStep d r) k, hR, Option.or_assoc, rowDictStep_or_none d r k]

theorem rowDict_cons (r : RowChecksum) (rows : List RowChecksum) (k : Nat) :
    rowDict (r :: rows) k
      = (rowDict rows k).or (if k = r.row_id then some r.row_checksum else none) := by
  show (rows.foldl rowDictStep (rowDictStep (fun _ => none) r)) k = _
  rw [foldl_rowDictStep_or]
  rfl

theorem rowDict_isSome (rows : List RowChecksum) (k : Nat) :
    (rowDict rows k).isSome = true ↔ k ∈ rows.map (fun r => r.row_id) := by
  induction rows with
  | nil => simp [rowDict]
  | cons r rows ih =>
    rw [rowDict_cons, Option.isSome_or]
    by_cases h : k = r.row_id <;> simp [h, ih]

theorem rowDict_eq_some (rows : List RowChecksum) (k v : Nat)
    (hv : rowDict rows k = some v) :
    ∃ r ∈ rows, r.row_id = k ∧ r.row_checksum = v := by
  induction rows with
  | nil => simp [rowDict] at hv
  | cons r rows ih =>
    rw [rowDict_cons] at hv
    cases hrd : rowDict rows k with
    | some v₁ =>
      rw [hrd] at hv
      obtain ⟨r₁, hr₁, hid, hcs⟩ := ih (by rw [hrd, ← hv]; rfl)
      exact ⟨r₁, List.mem_cons_of_mem r hr₁, hid, hcs⟩
    | none =>
      rw [hrd] at hv
      by_cases h : k = r.row_id
      · rw [Option.none_or, if_pos h] at hv
        exact ⟨r, List.mem_cons_self r rows, h.symm, Option.some.inj hv⟩
      · rw [Option.none_or, if_neg h] at hv
        exact absurd hv (by simp)

theorem gapless_row_id {rows : List RowChecksum}
    (h : rows.map (fun r => r.row_id) = List.range rows.length)
    {i : Nat} (hi : i < rows.length) : (rows.get ⟨i, hi⟩).row_id = i := by
  have h1 := congrArg (fun l => l[i]?) h
  simp only [List.getElem?_map, List.getElem?_eq_getElem hi,
    List.getElem?_range hi, Option.map_some, List.get_eq_getElem] at h1 ⊢
  exact Option.some.inj h1

theorem rowDict_gapless {rows : List RowChecksum}
    (h : rows.map (fun r => r.row_id) = List.range rows.length) (k : Nat) :
    rowDict rows k = rows[k]?.map (fun r => r.row_checksum) := by
  by_cases hk : k < rows.length
  · have hs : (rowDict rows k).isSome := by
      rw [rowDict_isSome, h]
      simpa [List.mem_range] using hk
    obtain ⟨v, hv⟩ := Option.isSome_iff_exists.1 hs
    obtain ⟨r, hr, hid, hcs⟩ := rowDict_eq_some rows k v hv
    obtain ⟨i, hi, hri⟩ := List.mem_iff_getElem.1 hr
    have hik : i = k := by
      have := gapless_row_id h hi
      simp only [List.get_eq_getElem] at this
      rw [hri, hid] at this
      exact this.symm
    subst hik
    rw [hv, List.getElem?_eq_getElem hi]
    simp [hri, hcs]
  · have hn : rowDict rows k = none := by
      cases he : rowDict rows k with
      | none => rfl
      | some v =>
        exfalso
        have : k ∈ rows.map (fun r => r.row_id) :=
          (rowDict_isSome rows k).1 (by rw [he]; rfl)
        rw [h, List.mem_range] at this
        omega
    rw [hn, List.getElem?_eq_none (Nat.le_of_not_lt hk)]
    rfl

theorem process_sheet_ok (title : String)
    (fetch : String → Except String (List (List String)))
    (m : Dict SheetChecksum) (data : List (List String))
    (hf : fetch title = Except.ok data) :
    process_sheet title fetch m
      = if data.isEmpty then m
        else Dict.insert m title
          { sheet_title := title, hashed_rows := process_sheet_rows data } := by
  unfold process_sheet
  rw [hf]

/-! ## Characterizations of the diff engine -/

theorem sheets_equal_none_iff (title : String) (B : SheetChecksum)
    (google : Dict SheetChecksum) :
    sheets_equal title B google = none ↔ Dict.lookup google title = none := by
  unfold sheets_equal
  cases Dict.lookup google title <;> simp

theorem sheets_equal_some {title : String} {B G : SheetChecksum}
    {google : Dict SheetChecksum}
    (hG : Dict.lookup google title = some G)
    (hB : B.hashed_rows.map (fun r => r.row_id) = List.range B.hashed_rows.length) :
    sheets_equal title B google
      = some (G.hashed_rows.filter (changed_spec B.hashed_rows)) := by
  unfold sheets_equal
  rw [hG]
  refine congrArg some (List.filter_congr ?_)
  intro r _
  rw [rowDict_gapless hB]
  unfold changed_spec
  cases B.hashed_rows[r.row_id]? <;> simp

theorem find_new_rows_none_iff (google : Dict SheetChecksum)
    (gridly : SheetChecksum) :
    Dict.lookup google gridly.sheet_title = none →
      find_new_rows google gridly = none := by
  intro h
  unfold find_new_rows
  rw [h]

theorem find_new_rows_some {google : Dict SheetChecksum}
    {gridly G : SheetChecksum}
    (hG : Dict.lookup google gridly.sheet_title = some G) :
    (G.hashed_rows.length ≤ gridly.hashed_rows.length →
      find_new_rows google gridly = none) ∧
    (gridly.hashed_rows.length < G.hashed_rows.length →
      find_new_rows google gridly
        = some (G.hashed_rows.drop gridly.hashed_rows.length)) := by
  have hmain : find_new_rows google gridly
      = (if ((G.hashed_rows.length : Int) - gridly.hashed_rows.length) ≤ 0 then none
         else some (G.hashed_rows.drop (G.hashed_rows.length -
           ((G.hashed_rows.length : Int) - gridly.hashed_rows.length).toNat))) := by
    unfold find_new_rows
    rw [hG]
  constructor
  · intro h
    rw [hmain, if_pos (by omega)]
  · intro h
    rw [hmain, if_neg (by omega)]
    have harith : G.hashed_rows.length -
        ((G.hashed_rows.length : Int) - gridly.hashed_rows.length).toNat
          = gridly.hashed_rows.length := by omega
    rw [harith]

/-! ## Claim theorems -/

/-- Claim C5: the row checksum equals the standard CRC32 of the byte
sequence obtained by concatenating the cells with no separator, hence
it is deterministic in the concatenation and any two cell sequences
with equal concatenations collide, in particular
`["ab", "c"]` and `["a", "bc"]`.  The final conjunct pins the CRC32
embedding to the standard check value of the ASCII string
"123456789". -/
theorem checksum_is_crc32_of_concatenation :
    (∀ row_data : List String,
      compute_row_hash row_data = crc32 (strBytes (String.join row_data))) ∧
    (∀ r1 r2 : List String, String.join r1 = String.join r2 →
      compute_row_hash r1 = compute_row_hash r2) ∧
    compute_row_hash ["ab", "c"] = compute_row_hash ["a", "bc"] ∧
    crc32 (strBytes "123456789") = 0xCBF43926 := by
  refine ⟨fun _ => rfl, fun r1 r2 h => ?_, by decide, by decide⟩
  simp [compute_row_hash, h]

/-- Witness for C5: the determinism conjunct applied at the concrete
column-boundary collision pair. -/
theorem checksum_is_crc32_of_concatenation_witness :
    String.join ["ab", "c"] = String.join ["a", "bc"] ∧
    compute_row_hash ["ab", "c"] = compute_row_hash ["a", "bc"] :=
  ⟨by decide, checksum_is_crc32_of_concatenation.2.1 ["ab", "c"] ["a", "bc"] (by decide)⟩

/-- Claim C6: both snapshot builders assign positions that are exactly
`0 .. len(rows) - 1` in order, with no gaps: the source-side builder
(which skips the header row) and the destination-side builder (which
runs over the fetched records). -/
theorem snapshot_positions_gapless :
    (∀ data : List (List String),
      (process_sheet_rows data).map (fun r => r.row_id)
        = List.range (process_sheet_rows data).length) ∧
    (∀ records : List Record,
      (process_gridly_rows records).map (fun r => r.row_id)
        = List.range (process_gridly_rows records).length) := by
  constructor
  · intro data
    unfold process_sheet_rows
    rw [List.map_map, List.length_map, List.enum_length]
    show (data.drop 1).enum.map Prod.fst = _
    rw [List.enum_map_fst]
  · intro records
    unfold process_gridly_rows
    rw [List.map_map, List.length_map, List.enum_length]
    show records.enum.map Prod.fst = _
    rw [List.enum_map_fst]

/-- Claim C9: the bootstrap status line reports "fully matches"
exactly when `sheets_equal` returned a non-empty list of changed rows,
and "does not match" exactly when it returned an empty list or the
no-data signal — the emitted string is the inverse of the comparison
outcome, because the code tests Python truthiness of the result. -/
theorem bootstrap_status_inverted :
    ∀ (title : String) (sheet : SheetChecksum) (google : Dict SheetChecksum),
      (bootstrap_status (sheets_equal title sheet google) = "fully matches"
        ↔ ∃ l, sheets_equal title sheet google = some l ∧ l ≠ []) ∧
      (bootstrap_status (sheets_equal title sheet google) = "does not match"
        ↔ (sheets_equal title sheet google = none
            ∨ sheets_equal title sheet google = some [])) := by
  intro title sheet google
  have hne : ("does not match" : String) ≠ "fully matches" := by decide
  cases h : sheets_equal title sheet google with
  | none => simp [bootstrap_status, truthy, hne]
  | some l =>
    cases l with
    | nil => simp [bootstrap_status, truthy, hne]
    | cons a t => simp [bootstrap_status, truthy, hne.symm]

/-- Claim C10: both push operations use `row_content[0]` as the
destination record id and map `row_content[1:]` in order to columns
named column1, column2, ..., never placing the identifier cell among
the column values; and the destination-side snapshot builder prepends
the fetched record id to the cell values, so index 0 of `row_content`
holds the record identifier on both sides. -/
theorem push_row_mapping :
    (∀ (row : RowChecksum) (record_id : String) (column_values : List String),
      row.row_content = record_id :: column_values →
      ∃ rec, row_to_record row = some rec ∧
        rec.id = record_id ∧
        rec.cells.map (fun c => c.value) = column_values ∧
        rec.cells.map (fun c => c.columnId)
          = (List.range column_values.length).map
              (fun i => "column" ++ toString (i + 1))) ∧
    (∀ records : List Record,
      (process_gridly_rows records).map (fun r => r.row_content)
        = records.map (fun r => r.id :: r.cells.map (fun c => c.value))) := by
  constructor
  · intro row record_id column_values h
    refine ⟨Record.mk record_id (column_values.enum.map (fun p =>
      Cell.mk ("column" ++ toString (p.1 + 1)) p.2)), ?_, rfl, ?_, ?_⟩
    · unfold row_to_record
      rw [h]
    · rw [List.map_map]
      show column_values.enum.map Prod.snd = _
      exact List.enum_map_snd column_values
    · rw [List.map_map]
      show column_values.enum.map
        ((fun i => "column" ++ toString (i + 1)) ∘ Prod.fst) = _
      rw [← List.map_map, List.enum_map_fst]
  · intro records
    unfold process_gridly_rows
    rw [List.map_map]
    show records.enum.map
      ((fun r => r.id :: r.cells.map (fun c => c.value)) ∘ Prod.snd) = _
    rw [← List.map_map, List.enum_map_snd]

/-- Witness for C10: the record built from a concrete three-cell row. -/
theorem push_row_mapping_witness :
    ∃ rec, row_to_record (RowChecksum.mk 0 0 ["id1", "x", "y"]) = some rec ∧
      rec.id = "id1" ∧
      rec.cells.map (fun c => c.value) = ["x", "y"] ∧
      rec.cells.map (fun c => c.columnId)
        = (List.range (["x", "y"] : List String).length).map
            (fun i => "column" ++ toString (i + 1)) :=
  push_row_mapping.1 (RowChecksum.mk 0 0 ["id1", "x", "y"]) "id1" ["x", "y"] rfl

/-- Counterexample to C8 as stated: for a grid with no rows at all the
builder does not yield a snapshot with an empty rows sequence — it
returns early (`if not data`) and the table is absent from the map. -/
theorem empty_grid_counterexample :
    process_sheet "A" (fun _ => Except.ok []) [] = ([] : Dict SheetChecksum) ∧
    Dict.lookup (process_sheet "A" (fun _ => Except.ok []) []) "A" = none := by
  constructor <;> rfl

/-- Claim C8 as amended: a grid whose only row is the header yields a
snapshot with an empty rows sequence, but a grid with no rows at all
yields no snapshot — the map is left unchanged and the table absent. -/
theorem empty_grid_amended :
    ∀ (title : String) (fetch : String → Except String (List (List String)))
      (m : Dict SheetChecksum) (data : List (List String)),
      fetch title = Except.ok data →
      (data ≠ [] → data.drop 1 = [] →
        Dict.lookup (process_sheet title fetch m) title
          = some { sheet_title := title, hashed_rows := [] }) ∧
      (data = [] → process_sheet title fetch m = m) := by
  intro title fetch m data hf
  constructor
  · intro hne hdrop
    rw [process_sheet_ok title fetch m data hf]
    rw [if_neg (by simpa [List.isEmpty_iff] using hne)]
    have hrows : process_sheet_rows data = [] := by
      unfold process_sheet_rows
      rw [hdrop]
      rfl
    rw [hrows]
    exact Dict.lookup_insert_self m title _
  · intro he
    rw [process_sheet_ok title fetch m data hf, if_pos (by simp [he])]

/-- Witness for the amended C8: a concrete header-only grid yields an
empty-rows snapshot. -/
theorem empty_grid_amended_witness :
    Dict.lookup (process_sheet "A" (fun _ => Except.ok [["h1", "h2"]]) []) "A"
      = some { sheet_title := "A", hashed_rows := [] } :=
  (empty_grid_amended "A" (fun _ => Except.ok [["h1", "h2"]]) [] [["h1", "h2"]]
    rfl).1 (by decide) rfl

/-- Claim C3, evaluated at a failing input: with two configured tables
where the source read of table A fails (so A is absent from the fresh
source map) and table B succeeds, the cycle aborts with the uncaught
`KeyError` at `current_google_hash[title].reference` instead of
processing the remaining table and retrying A next cycle — the error
escapes to the fatal handler of `main`, which re-raises it. -/
theorem failed_table_aborts_cycle :
    run_cycle ["A", "B"]
      (fun t => if t = "A" then Except.error "network error"
                else Except.ok [["h"]])
      [("A", { sheet_title := "A",
               hashed_rows := [RowChecksum.mk 0 5 ["a"]] }),
       ("B", { sheet_title := "B", hashed_rows := [] })]
      = Except.error "A" := by
  rfl

/-- Claim C1: when baseline and candidate share the table-name key,
update-detection returns exactly the candidate rows whose position is
also a baseline position and whose checksum differs from the
baseline's checksum at that position; positions present only in the
candidate are never reported; and when the key is absent the result
is the no-data signal `none`, which is distinguishable from `some []`
because the result is `none` exactly when the key is absent. -/
theorem update_detection_spec :
    ∀ (title : String) (B : SheetChecksum) (google : Dict SheetChecksum),
      B.hashed_rows.map (fun r => r.row_id) = List.range B.hashed_rows.length →
      (sheets_equal title B google = none ↔ Dict.lookup google title = none) ∧
      (∀ G, Dict.lookup google title = some G →
        sheets_equal title B google
          = some (G.hashed_rows.filter (changed_spec B.hashed_rows))) ∧
      (∀ G l, Dict.lookup google title = some G →
        sheets_equal title B google = some l →
        ∀ r ∈ l, r.row_id < B.hashed_rows.length) := by
  intro title B google hB
  refine ⟨sheets_equal_none_iff title B google,
    fun G hG => sheets_equal_some hG hB, ?_⟩
  intro G l hG hl r hr
  rw [sheets_equal_some hG hB] at hl
  have hl2 : l = G.hashed_rows.filter (changed_spec B.hashed_rows) :=
    (Option.some.inj hl).symm
  subst hl2
  have hcs := (List.mem_filter.1 hr).2
  by_contra hlt
  unfold changed_spec at hcs
  rw [List.getElem?_eq_none (Nat.le_of_not_lt hlt)] at hcs
  simp at hcs

/-- Witness for C1: a concrete pair where position 1 changed, position
0 is unchanged and position 2 exists only in the candidate; only the
row at position 1 is reported. -/
theorem update_detection_spec_witness :
    sheets_equal "t"
      { sheet_title := "t",
        hashed_rows := [RowChecksum.mk 0 10 ["a"], RowChecksum.mk 1 20 ["b"]] }
      [("t", { sheet_title := "t",
               hashed_rows := [RowChecksum.mk 0 10 ["a"],
                 RowChecksum.mk 1 99 ["b2"], RowChecksum.mk 2 77 ["c"]] })]
      = some [RowChecksum.mk 1 99 ["b2"]] := by
  have h := (update_detection_spec "t"
      { sheet_title := "t",
        hashed_rows := [RowChecksum.mk 0 10 ["a"], RowChecksum.mk 1 20 ["b"]] }
      [("t", { sheet_title := "t",
               hashed_rows := [RowChecksum.mk 0 10 ["a"],
                 RowChecksum.mk 1 99 ["b2"], RowChecksum.mk 2 77 ["c"]] })]
      (by decide)).2.1
      { sheet_title := "t",
        hashed_rows := [RowChecksum.mk 0 10 ["a"],
          RowChecksum.mk 1 99 ["b2"], RowChecksum.mk 2 77 ["c"]] }
      (by decide)
  rw [h]
  decide

/-- Claim C2: new-row detection computes the signed difference of the
row counts; when it is not positive no new rows are reported (so
shrinkage of the candidate is invisible), and otherwise the result is
verbatim the last `extra` rows of the candidate in order — the drop
of the baseline length, whose length is `extra` and which is the tail
complement of the first baseline-length rows. -/
theorem new_row_detection_spec :
    ∀ (google : Dict SheetChecksum) (gridly G : SheetChecksum),
      Dict.lookup google gridly.sheet_title = some G →
      (((G.hashed_rows.length : Int) - gridly.hashed_rows.length) ≤ 0 →
        find_new_rows google gridly = none) ∧
      (0 < ((G.hashed_rows.length : Int) - gridly.hashed_rows.length) →
        find_new_rows google gridly
            = some (G.hashed_rows.drop gridly.hashed_rows.length) ∧
          (G.hashed_rows.drop gridly.hashed_rows.length).length
            = G.hashed_rows.length - gridly.hashed_rows.length ∧
          G.hashed_rows.take gridly.hashed_rows.length
              ++ G.hashed_rows.drop gridly.hashed_rows.length
            = G.hashed_rows) := by
  intro google gridly G hG
  have h := find_new_rows_some hG
  refine ⟨fun hle => h.1 (by omega),
    fun hlt => ⟨h.2 (by omega), ?_, List.take_append_drop _ _⟩⟩
  rw [List.length_drop]

/-- Witness for C2: a candidate that grew from one row to three rows
reports exactly the last two rows, in order. -/
theorem new_row_detection_spec_witness :
    find_new_rows
      [("t", { sheet_title := "t",
               hashed_rows := [RowChecksum.mk 0 10 ["a"],
                 RowChecksum.mk 1 20 ["b"], RowChecksum.mk 2 30 ["c"]] })]
      { sheet_title := "t", hashed_rows := [RowChecksum.mk 0 10 ["a"]] }
      = some [RowChecksum.mk 1 20 ["b"], RowChecksum.mk 2 30 ["c"]] := by
  have h := ((new_row_detection_spec
      [("t", { sheet_title := "t",
               hashed_rows := [RowChecksum.mk 0 10 ["a"],
                 RowChecksum.mk 1 20 ["b"], RowChecksum.mk 2 30 ["c"]] })]
      { sheet_title := "t", hashed_rows := [RowChecksum.mk 0 10 ["a"]] }
      { sheet_title := "t",
        hashed_rows := [RowChecksum.mk 0 10 ["a"],
          RowChecksum.mk 1 20 ["b"], RowChecksum.mk 2 30 ["c"]] }
      (by decide)).2 (by decide)).1
  rw [h]
  decide

/-- Claim C4: when the candidate snapshot is the baseline snapshot
with `k` rows appended at the tail (existing rows unchanged, positions
gapless on both sides), update-detection reports no changed rows; with
`k = 0` (identical snapshots) new-row detection reports no rows, and
with `k > 0` it returns exactly the appended rows in order. -/
theorem noop_and_tail_append :
    ∀ (google : Dict SheetChecksum) (gridly G : SheetChecksum)
      (extra : List RowChecksum),
      Dict.lookup google gridly.sheet_title = some G →
      gridly.hashed_rows.map (fun r => r.row_id)
        = List.range gridly.hashed_rows.length →
      G.hashed_rows.map (fun r => r.row_id) = List.range G.hashed_rows.length →
      G.hashed_rows = gridly.hashed_rows ++ extra →
      sheets_equal gridly.sheet_title gridly google = some [] ∧
      (extra = [] → find_new_rows google gridly = none) ∧
      (extra ≠ [] → find_new_rows google gridly = some extra) := by
  intro google gridly G extra hG hBgap hGgap happ
  have hlen : G.hashed_rows.length
      = gridly.hashed_rows.length + extra.length := by
    rw [happ, List.length_append]
  refine ⟨?_, ?_, ?_⟩
  · rw [sheets_equal_some hG hBgap]
    refine congrArg some (List.filter_eq_nil_iff.2 ?_)
    intro r hr
    obtain ⟨i, hi, hri⟩ := List.mem_iff_getElem.1 hr
    have hrid : r.row_id = i := by
      rw [← hri]
      exact gapless_row_id hGgap hi
    unfold changed_spec
    rw [hrid]
    by_cases hib : i < gridly.hashed_rows.length
    · rw [List.getElem?_eq_getElem hib]
      have hgb : G.hashed_rows[i] = gridly.hashed_rows[i] := by
        simp only [happ]
        exact List.getElem_append_left hib
      have hbr : gridly.hashed_rows[i] = r := by
        rw [← hgb, hri]
      simp [hbr]
    · rw [List.getElem?_eq_none (Nat.le_of_not_lt hib)]
      simp
  · intro he
    exact (find_new_rows_some hG).1 (by rw [hlen, he]; simp)
  · intro hne
    have hlt : gridly.hashed_rows.length < G.hashed_rows.length := by
      have := List.length_pos.2 hne
      omega
    rw [(find_new_rows_some hG).2 hlt, happ, List.drop_left]

/-- Witness for C4: appending one row to a one-row snapshot produces
no changed rows and exactly the appended row as new. -/
theorem noop_and_tail_append_witness :
    sheets_equal "t"
      { sheet_title := "t", hashed_rows := [RowChecksum.mk 0 5 ["a"]] }
      [("t", { sheet_title := "t",
               hashed_rows := [RowChecksum.mk 0 5 ["a"],
                 RowChecksum.mk 1 7 ["b"]] })]
      = some [] ∧
    find_new_rows
      [("t", { sheet_title := "t",
               hashed_rows := [RowChecksum.mk 0 5 ["a"],
                 RowChecksum.mk 1 7 ["b"]] })]
      { sheet_title := "t", hashed_rows := [RowChecksum.mk 0 5 ["a"]] }
      = some [RowChecksum.mk 1 7 ["b"]] := by
  have h := noop_and_tail_append
      [("t", { sheet_title := "t",
               hashed_rows := [RowChecksum.mk 0 5 ["a"],
                 RowChecksum.mk 1 7 ["b"]] })]
      { sheet_title := "t", hashed_rows := [RowChecksum.mk 0 5 ["a"]] }
      { sheet_title := "t",
        hashed_rows := [RowChecksum.mk 0 5 ["a"], RowChecksum.mk 1 7 ["b"]] }
      [RowChecksum.mk 1 7 ["b"]]
      (by decide) (by decide) (by decide) (by decide)
  exact ⟨h.1, h.2.2 (by decide)⟩

/-- Claim C7: under gapless 0-based positions, both diff outputs are
in ascending position order, no row returned by new-row detection has
a position that exists in the baseline, and the two result sets are
disjoint. -/
theorem diff_outputs_ordered_disjoint :
    ∀ (google : Dict SheetChecksum) (gridly G : SheetChecksum),
      Dict.lookup google gridly.sheet_title = some G →
      gridly.hashed_rows.map (fun r => r.row_id)
        = List.range gridly.hashed_rows.length →
      G.hashed_rows.map (fun r => r.row_id) = List.range G.hashed_rows.length →
      (∀ l, sheets_equal gridly.sheet_title gridly google = some l →
        (l.map (fun r => r.row_id)).Pairwise (fun a b => a < b)) ∧
      (∀ m, find_new_rows google gridly = some m →
        (m.map (fun r => r.row_id)).Pairwise (fun a b => a < b) ∧
        ∀ r ∈ m, r.row_id ∉ gridly.hashed_rows.map (fun r => r.row_id)) ∧
      (∀ l m r, sheets_equal gridly.sheet_title gridly google = some l →
        find_new_rows google gridly = some m → r ∈ l → r ∈ m → False) := by
  intro google gridly G hG hBgap hGgap
  have hGpair : (G.hashed_rows.map (fun r => r.row_id)).Pairwise
      (fun a b => a < b) := by
    rw [hGgap]
    exact List.pairwise_lt_range _
  have hchanged : ∀ l, sheets_equal gridly.sheet_title gridly google = some l →
      l = G.hashed_rows.filter (changed_spec gridly.hashed_rows) := by
    intro l hl
    rw [sheets_equal_some hG hBgap] at hl
    exact (Option.some.inj hl).symm
  have hnew : ∀ m, find_new_rows google gridly = some m →
      m = G.hashed_rows.drop gridly.hashed_rows.length := by
    intro m hm
    by_cases hlen : G.hashed_rows.length ≤ gridly.hashed_rows.length
    · rw [(find_new_rows_some hG).1 hlen] at hm
      exact absurd hm (by simp)
    · rw [(find_new_rows_some hG).2 (by omega)] at hm
      exact (Option.some.inj hm).symm
  have hnewpos : ∀ r ∈ G.hashed_rows.drop gridly.hashed_rows.length,
      gridly.hashed_rows.length ≤ r.row_id := by
    intro r hr
    obtain ⟨j, hj, hrj⟩ := List.mem_iff_getElem.1 hr
    have hjlen : gridly.hashed_rows.length + j < G.hashed_rows.length := by
      rw [List.length_drop] at hj
      omega
    rw [List.getElem_drop] at hrj
    have hid : r.row_id = gridly.hashed_rows.length + j := by
      rw [← hrj]
      exact gapless_row_id hGgap hjlen
    omega
  have hchpos : ∀ r ∈ G.hashed_rows.filter (changed_spec gridly.hashed_rows),
      r.row_id < gridly.hashed_rows.length := by
    intro r hr
    have hcs := (List.mem_filter.1 hr).2
    by_contra hlt
    unfold changed_spec at hcs
    rw [List.getElem?_eq_none (Nat.le_of_not_lt hlt)] at hcs
    simp at hcs
  refine ⟨?_, ?_, ?_⟩
  · intro l hl
    rw [hchanged l hl]
    exact List.Pairwise.sublist
      (List.Sublist.map _ (List.filter_sublist _)) hGpair
  · intro m hm
    rw [hnew m hm]
    refine ⟨List.Pairwise.sublist
      (List.Sublist.map _ (List.drop_sublist _ _)) hGpair, ?_⟩
    intro r hr hmem
    rw [hBgap, List.mem_range] at hmem
    have := hnewpos r hr
    omega
  · intro l m r hl hm hrl hrm
    rw [hchanged l hl] at hrl
    rw [hnew m hm] at hrm
    have h1 := hchpos r hrl
    have h2 := hnewpos r hrm
    omega

/-- Witness for C7: the single new row of a concrete grown candidate
is in ascending order and its position is absent from the baseline. -/
theorem diff_outputs_ordered_disjoint_witness :
    (([RowChecksum.mk 1 99 ["b"]].map (fun r => r.row_id)).Pairwise
      (fun a b => a < b)) ∧
    ∀ r ∈ [RowChecksum.mk 1 99 ["b"]],
      r.row_id ∉ ([RowChecksum.mk 0 5 ["a"]].map (fun r => r.row_id)) :=
  (diff_outputs_ordered_disjoint
      [("t", { sheet_title := "t",
               hashed_rows := [RowChecksum.mk 0 6 ["a2"],
                 RowChecksum.mk 1 99 ["b"]] })]
      { sheet_title := "t", hashed_rows := [RowChecksum.mk 0 5 ["a"]] }
      { sheet_title := "t",
        hashed_rows := [RowChecksum.mk 0 6 ["a2"], RowChecksum.mk 1 99 ["b"]] }
      (by decide) (by decide) (by decide)).2.1
    [RowChecksum.mk 1 99 ["b"]] (by decide)

end Playrix
